import Mathlib

/- Verification development for the TUM Onboarding Chatbot repository.

   The repository snapshot contains the React frontend (ChatWindow.jsx,
   SecurityGuard.jsx), deployment configuration, and the documentation of the
   Python backend, but not the backend sources themselves.  The frontend
   components are embedded directly from their JSX source; the backend
   retrieval and conversation engine (Hybrid Search Engine, Context Resolver,
   Session Store, Conversation Orchestrator) is modelled from the
   specification, as marked on each definition. -/

/- ===================== Frontend: ChatWindow.jsx ===================== -/

/-- Whitespace class used by the JavaScript trim call on chat input
    (space, tab, newline, carriage return). -/
def isJsWhitespace (c : Char) : Bool :=
  c = ' ' || c = '\t' || c = '\n' || c = '\r'

/-- Embedding of the JavaScript expression input.trim() in ChatWindow.jsx:
    removes leading and trailing whitespace. -/
def jsTrim (s : String) : String :=
  String.mk (((s.data.dropWhile isJsWhitespace).reverse.dropWhile isJsWhitespace).reverse)

/-- Chat message role as used by ChatWindow.jsx message objects. -/
inductive ChatRole
  | user
  | bot
deriving DecidableEq, Repr

/-- One entry of the messages array in ChatWindow.jsx. -/
structure ChatMsg where
  role : ChatRole
  text : String
deriving DecidableEq, Repr

/-- The ChatWindow component state touched by sendMessage:
    messages, input, isLoading, hasUserMessage (ChatWindow.jsx lines 34-41). -/
structure ChatState where
  messages : List ChatMsg
  input : String
  isLoading : Bool
  hasUserMessage : Bool
deriving DecidableEq, Repr

/-- Embedding of the synchronous head of sendMessage (ChatWindow.jsx lines
    85-99): the guard rejects blank input or a send while loading; otherwise
    the user turn is appended, the input cleared, loading set, and the chat
    request body (the message text) is issued.  The returned Option String is
    the body of the POST to /api/v2/chat, none when no request is issued. -/
def sendMessage (st : ChatState) : ChatState × Option String :=
  if jsTrim st.input = "" || st.isLoading then (st, none)
  else
    ({ messages := st.messages ++ [{ role := ChatRole.user, text := st.input }]
       input := ""
       isLoading := true
       hasUserMessage := true }, some st.input)

/-- Outcome of the fetch to /api/v2/chat as handled in sendMessage
    (ChatWindow.jsx lines 101-148): a 2xx response carrying data.response, a
    non-OK response whose JSON body may carry an error field, or a thrown
    exception with its message. -/
inductive FetchOutcome
  | ok (response : String)
  | httpError (errorField : Option String)
  | exn (message : String)
deriving DecidableEq, Repr

/-- The text of the bot turn appended by sendMessage for each fetch outcome,
    read off the template literals at ChatWindow.jsx lines 120, 129-131 and
    143. -/
def botReplyText (apiBaseUrl : String) : FetchOutcome → String
  | FetchOutcome.ok r => r
  | FetchOutcome.httpError e =>
      "I apologize, but I encountered an error: " ++ e.getD "Unknown error" ++
        ". Please try again or contact support if the problem persists."
  | FetchOutcome.exn m =>
      "Connection error: " ++ m ++ ". API URL: " ++ apiBaseUrl ++ "/api/v2/chat"

/-- State update performed by sendMessage once the fetch settles
    (ChatWindow.jsx lines 114-148): exactly one bot turn is appended and
    isLoading is cleared, in every outcome. -/
def applyFetchOutcome (apiBaseUrl : String) (st : ChatState) (o : FetchOutcome) : ChatState :=
  { st with
    messages := st.messages ++ [{ role := ChatRole.bot, text := botReplyText apiBaseUrl o }]
    isLoading := false }

/-- Substring containment, used to state what the user-visible error text
    embeds. -/
def ContainsSub (sub s : String) : Prop := ∃ pre post, s = pre ++ sub ++ post

/- ===================== Frontend: SecurityGuard.jsx ===================== -/

/-- Shallow JSON value, enough to express the dynamic type checks done by
    verifyResponseIntegrity in SecurityGuard.jsx. -/
inductive JVal
  | jnull
  | jbool (b : Bool)
  | jstr (s : String)
  | jnum (n : Int)
deriving DecidableEq, Repr

/-- JavaScript truthiness of a JSON value. -/
def JVal.truthy : JVal → Bool
  | JVal.jnull => false
  | JVal.jbool b => b
  | JVal.jstr s => decide (s ≠ "")
  | JVal.jnum n => decide (n ≠ 0)

/-- Whether the value has JavaScript typeof boolean. -/
def JVal.isBool : JVal → Bool
  | JVal.jbool _ => true
  | _ => false

/-- Whether the value has JavaScript typeof string. -/
def JVal.isStr : JVal → Bool
  | JVal.jstr _ => true
  | _ => false

/-- Parsed JSON body of the /api/v2/security/validate-ip response, with the
    fields SecurityGuard.jsx reads; absent fields are jnull (attack_type is
    kept optional because the code reads it with a fallback). -/
structure IPData where
  blocked : JVal
  reason : JVal
  attack_type : Option JVal
  request_id : JVal
deriving DecidableEq, Repr

/-- Embedding of verifyResponseIntegrity (SecurityGuard.jsx lines 68-75):
    blocked must be a boolean, reason a string, request_id truthy. -/
def verifyResponseIntegrity (d : IPData) : Bool :=
  d.blocked.isBool && d.reason.isStr && d.request_id.truthy

/-- Outcome of the validate-ip fetch in validateIP (SecurityGuard.jsx lines
    21-34): an OK response with a parsed JSON body (none models a null body),
    a non-OK status (the code throws), or a rejected fetch. -/
inductive FetchIP
  | ok (body : Option IPData)
  | httpFail (status : Nat)
  | netError (message : String)
deriving DecidableEq, Repr

/-- The SecurityGuard component state set by validateIP (SecurityGuard.jsx
    lines 5-10). -/
structure GuardState where
  isBlocked : Bool
  blockReason : JVal
  attackType : JVal
  isLoading : Bool
  error : Option String
deriving DecidableEq, Repr

/-- Component state on mount (SecurityGuard.jsx lines 5-9). -/
def initialGuardState : GuardState :=
  { isBlocked := false
    blockReason := JVal.jstr ""
    attackType := JVal.jstr ""
    isLoading := true
    error := none }

/-- Error text set by the catch branch of validateIP (SecurityGuard.jsx line
    53). -/
def securityErrorMessage : String :=
  "Unable to validate security status. Please try again later."

/-- Embedding of validateIP (SecurityGuard.jsx lines 16-59) as the component
    state it leaves behind for each fetch outcome: a non-OK status, a failed
    integrity check, a null body and a network error all flow into the catch
    branch, which sets the error and marks the guard blocked; a well-formed
    body dispatches on data.blocked. -/
def validateIP (f : FetchIP) : GuardState :=
  match f with
  | FetchIP.ok (some d) =>
      if verifyResponseIntegrity d then
        if d.blocked.truthy then
          { isBlocked := true
            blockReason := d.reason
            attackType :=
              (match d.attack_type with
               | some v => if v.truthy then v else JVal.jstr "unknown"
               | none => JVal.jstr "unknown")
            isLoading := false
            error := none }
        else
          { initialGuardState with isBlocked := false, isLoading := false }
      else
        { initialGuardState with
            isBlocked := true, isLoading := false, error := some securityErrorMessage }
  | _ =>
      { initialGuardState with
          isBlocked := true, isLoading := false, error := some securityErrorMessage }

/-- What the SecurityGuard component renders. -/
inductive GuardView
  | loading
  | errorView (message : String)
  | blockedView (reason attackType : JVal)
  | content
deriving DecidableEq, Repr

/-- Embedding of the render body of SecurityGuard (SecurityGuard.jsx lines
    97-157): loading screen, then error screen, then blocked screen, and only
    past all three the children. -/
def renderGuard (g : GuardState) : GuardView :=
  if g.isLoading then GuardView.loading
  else
    match g.error with
    | some m => GuardView.errorView m
    | none =>
        if g.isBlocked then GuardView.blockedView g.blockReason g.attackType
        else GuardView.content

/- ===================== Backend: Hybrid Search Engine ===================== -/

/-- Modelled from the spec: a Knowledge Store entry (spec section 3); the
    Python backend holding this type is not part of the repository snapshot.
    The embedding vector is not represented because the spec treats the
    embedding model as opaque; semantic scores enter the model through a
    scoring function instead. -/
structure KnowledgeEntry where
  id : Nat
  question : String
  answer : String
  keywords : List String
  category : String
  requires_role : Bool
  requires_campus : Bool
deriving DecidableEq, Repr

/-- Modelled from the spec: an ephemeral search result carrying the entry id
    and the fused score used for ranking (spec section 3, SearchResult). -/
structure SearchResult where
  entry_id : Nat
  fused_score : ℚ
deriving DecidableEq, Repr

/-- Modelled from the spec: the ranking order of section 4.2 - descending
    fused score, ties broken by entry id ascending. -/
def rankRel (a b : SearchResult) : Prop :=
  b.fused_score < a.fused_score ∨
    (a.fused_score = b.fused_score ∧ a.entry_id ≤ b.entry_id)

instance : DecidableRel rankRel := fun a b => by
  unfold rankRel; infer_instance

instance : IsTotal SearchResult rankRel := by
  constructor
  intro a b
  rcases lt_trichotomy a.fused_score b.fused_score with h | h | h
  · exact Or.inr (Or.inl h)
  · rcases Nat.le_total a.entry_id b.entry_id with h2 | h2
    · exact Or.inl (Or.inr ⟨h, h2⟩)
    · exact Or.inr (Or.inr ⟨h.symm, h2⟩)
  · exact Or.inl (Or.inl h)

instance : IsTrans SearchResult rankRel := by
  constructor
  intro a b c hab hbc
  rcases hab with hab | ⟨hab1, hab2⟩
  · rcases hbc with hbc | ⟨hbc1, hbc2⟩
    · exact Or.inl (hbc.trans hab)
    · exact Or.inl (hbc1 ▸ hab)
  · rcases hbc with hbc | ⟨hbc1, hbc2⟩
    · exact Or.inl (by rw [hab1]; exact hbc)
    · exact Or.inr ⟨hab1.trans hbc1, hab2.trans hbc2⟩

/-- Modelled from the spec: score every Knowledge Store entry for one query
    with a given per-entry score. -/
def scoreResults (score : KnowledgeEntry → ℚ) (store : List KnowledgeEntry) :
    List SearchResult :=
  store.map (fun e => { entry_id := e.id, fused_score := score e })

/-- Modelled from the spec: the full deterministic ranking of the store for
    one query (spec section 4.2, Ranking). -/
def rankAll (score : KnowledgeEntry → ℚ) (store : List KnowledgeEntry) :
    List SearchResult :=
  List.insertionSort rankRel (scoreResults score store)

/-- Modelled from the spec: a malformed top_k (at most 0) is clamped to 1
    before use (spec section 4.2, Failure conditions). -/
def clampTopK (top_k : Int) : Nat :=
  if top_k ≤ 0 then 1 else top_k.toNat

/-- Modelled from the spec: the value a search call returns - the ordered
    results plus the fallback flag of section 4.2. -/
structure SearchOutput where
  results : List SearchResult
  fallback : Bool
deriving DecidableEq, Repr

/-- Modelled from the spec: the primary, thresholded result set - entries
    below the similarity threshold are excluded, then at most top_k are kept
    (spec section 4.2, Threshold policy). -/
def primaryResults (score : KnowledgeEntry → ℚ) (store : List KnowledgeEntry)
    (threshold : ℚ) (top_k : Int) : List SearchResult :=
  ((rankAll score store).filter (fun r => decide (threshold ≤ r.fused_score))).take
    (clampTopK top_k)

/-- Modelled from the spec: search (spec section 4.2) - if the primary
    thresholded set is empty, the same ranking is reused without the
    threshold and up to top_k entries are returned with the fallback flag
    set; otherwise the primary set is returned with the flag clear. -/
def search (score : KnowledgeEntry → ℚ) (store : List KnowledgeEntry)
    (threshold : ℚ) (top_k : Int) : SearchOutput :=
  let primary := primaryResults score store threshold top_k
  if primary.isEmpty then
    { results := (rankAll score store).take (clampTopK top_k), fallback := true }
  else
    { results := primary, fallback := false }

/-- Modelled from the spec: the number of primary (non-fallback) results a
    search call returns; zero when the call fell back. -/
def primaryCount (score : KnowledgeEntry → ℚ) (store : List KnowledgeEntry)
    (threshold : ℚ) (top_k : Int) : Nat :=
  if (search score store threshold top_k).fallback then 0
  else (search score store threshold top_k).results.length

/-- Modelled from the spec: tokenizer splitting a query on spaces, used by
    the lexical score (spec section 4.2, Lexical score). -/
def splitTokens : List Char → List Char → List String
  | [], cur => if cur.isEmpty then [] else [String.mk cur.reverse]
  | c :: rest, cur =>
      if c = ' ' then
        if cur.isEmpty then splitTokens rest []
        else String.mk cur.reverse :: splitTokens rest []
      else splitTokens rest (c :: cur)

/-- Modelled from the spec: tokenize a string into space-separated tokens. -/
def tokenize (s : String) : List String := splitTokens s.data []

/-- Modelled from the spec: the lexical vocabulary of an entry - its keywords
    plus the tokens of its question and category (spec section 4.2). -/
def lexicalTerms (e : KnowledgeEntry) : List String :=
  e.keywords ++ tokenize e.question ++ tokenize e.category

/-- Modelled from the spec: normalized overlap between query tokens and an
    entry's lexical terms, in [0, 1] (spec section 4.2, Lexical score). -/
def lexicalScore (queryTokens : List String) (e : KnowledgeEntry) : ℚ :=
  ((queryTokens.filter (fun t => decide (t ∈ lexicalTerms e))).length : ℚ) /
    (max 1 queryTokens.length : ℚ)

/-- Modelled from the spec: fixed-weight linear combination of the semantic
    and lexical scores, re-normalized by the weight sum (spec section 4.2,
    Fused score). -/
def fusedScore (semanticWeight lexicalWeight semantic lexical : ℚ) : ℚ :=
  (semanticWeight * semantic + lexicalWeight * lexical) /
    (semanticWeight + lexicalWeight)

/-- Modelled from the spec: the hybrid per-entry score of a query, a pure
    function of the query, the entry, the weights and the (opaque) semantic
    scoring function. -/
def hybridScore (semScore : String → KnowledgeEntry → ℚ) (weights : ℚ × ℚ)
    (query : String) (e : KnowledgeEntry) : ℚ :=
  fusedScore weights.1 weights.2 (semScore query e)
    (lexicalScore (tokenize query) e)

/- ===================== Backend: Context Resolver ===================== -/

/-- Modelled from the spec: the closed role enumeration (student, employee,
    visitor) of the backend API documentation. -/
inductive Role
  | student
  | employee
  | visitor
deriving DecidableEq, Repr

/-- Modelled from the spec: the closed campus enumeration (Munich, Heilbronn,
    Singapore) of the backend API documentation. -/
inductive Campus
  | munich
  | heilbronn
  | singapore
deriving DecidableEq, Repr

/-- Modelled from the spec: the Context Resolver states of section 4.3. -/
inductive ResolverState
  | Unset
  | AwaitingCampus
  | AwaitingRole
  | AwaitingBoth
  | Resolved
deriving DecidableEq, Repr

/-- Modelled from the spec: match one token against the closed role
    enumeration (section 4.3 step 5 assumes closed-enumeration matching). -/
def parseRoleToken (t : String) : Option Role :=
  if t = "student" || t = "Student" then some Role.student
  else if t = "employee" || t = "Employee" then some Role.employee
  else if t = "visitor" || t = "Visitor" then some Role.visitor
  else none

/-- Modelled from the spec: match one token against the closed campus
    enumeration. -/
def parseCampusToken (t : String) : Option Campus :=
  if t = "munich" || t = "Munich" then some Campus.munich
  else if t = "heilbronn" || t = "Heilbronn" then some Campus.heilbronn
  else if t = "singapore" || t = "Singapore" then some Campus.singapore
  else none

/-- Modelled from the spec: an unambiguous role declaration inside the user
    message, if any. -/
def detectRole (msg : String) : Option Role :=
  (tokenize msg).findSome? parseRoleToken

/-- Modelled from the spec: an unambiguous campus declaration inside the user
    message, if any. -/
def detectCampus (msg : String) : Option Campus :=
  (tokenize msg).findSome? parseCampusToken

/-- Modelled from the spec: a conversation turn of the session history
    (spec section 3, Session). -/
inductive Speaker
  | user
  | assistant
deriving DecidableEq, Repr

/-- Modelled from the spec: one history turn. -/
structure Turn where
  speaker : Speaker
  text : String
  timestamp : Nat
deriving DecidableEq, Repr

/-- Modelled from the spec: per-session conversational state (spec section 3,
    Session). -/
structure Session where
  session_id : String
  user_id : String
  resolved_role : Option Role
  resolved_campus : Option Campus
  history : List Turn
  created_at : Nat
  last_active_at : Nat
deriving DecidableEq, Repr

/-- Modelled from the spec: step 5 of the Context Resolver transition
    (section 4.3) - an unambiguous role or campus declaration in the message
    updates the resolved fields immediately; absent a declaration the stored
    values are kept. -/
def applyDeclarations (s : Session) (msg : String) : Session :=
  { s with
    resolved_role :=
      match detectRole msg with
      | some r => some r
      | none => s.resolved_role
    resolved_campus :=
      match detectCampus msg with
      | some c => some c
      | none => s.resolved_campus }

/-- Modelled from the spec: the resolver state reported for a turn that needs
    no clarification - Resolved when both context fields are known, Unset
    otherwise (a context-irrelevant turn is answered regardless of state,
    section 4.3 step 2). -/
def derivedState (s : Session) : ResolverState :=
  if s.resolved_role.isSome && s.resolved_campus.isSome then ResolverState.Resolved
  else ResolverState.Unset

/-- Modelled from the spec: steps 2-4 of the Context Resolver transition
    (section 4.3) on a session whose declarations are already applied - a
    query requiring no context proceeds directly; otherwise the missing
    fields are computed and the matching Awaiting state is produced. -/
def resolverStep (s1 : Session) (topRequiresRole topRequiresCampus : Bool) :
    ResolverState :=
  if !topRequiresRole && !topRequiresCampus then derivedState s1
  else
    let missingRole := topRequiresRole && s1.resolved_role.isNone
    let missingCampus := topRequiresCampus && s1.resolved_campus.isNone
    if missingCampus && missingRole then ResolverState.AwaitingBoth
    else if missingCampus then ResolverState.AwaitingCampus
    else if missingRole then ResolverState.AwaitingRole
    else ResolverState.Resolved

/-- Modelled from the spec: the Context Resolver transition function of
    section 4.3, evaluated on one user turn.  The flags say whether the top
    search candidate for the (expanded) query requires role or campus.
    Declarations in the message are applied first (single-turn resolution),
    then the missing fields are computed and the matching Awaiting state is
    produced. -/
def resolveContext (s : Session) (msg : String)
    (topRequiresRole topRequiresCampus : Bool) : Session × ResolverState :=
  let s1 := applyDeclarations s msg
  (s1, resolverStep s1 topRequiresRole topRequiresCampus)

/- ===================== Backend: Session Store ===================== -/

/-- Configured conversation-history limit; default 12 turns
    (docker-compose CONVERSATION_HISTORY_LIMIT). -/
def CONVERSATION_HISTORY_LIMIT : Nat := 12

/-- Modelled from the spec: trim the oldest turns once the history exceeds
    the configured limit (spec section 4.4, History bounding); dropping from
    the front evicts oldest first. -/
def trimHistory (limit : Nat) (h : List Turn) : List Turn :=
  h.drop (h.length - limit)

/-- Modelled from the spec: append one turn to a session and trim the history
    to the configured limit (spec section 4.4, append_turn); the turn
    timestamp refreshes last_active_at. -/
def appendTurn (limit : Nat) (s : Session) (t : Turn) : Session :=
  { s with
    history := trimHistory limit (s.history ++ [t])
    last_active_at := t.timestamp }

/- ===================== Backend: Conversation Orchestrator ===================== -/

/-- Modelled from the spec: the observable outcome of the external generation
    collaborator - success with text, failure, timeout, or malformed output
    (spec sections 4.5 and 7). -/
inductive GenOutcome
  | ok (text : String)
  | failed
  | timedOut
  | malformed
deriving DecidableEq, Repr

/-- Whether the generation outcome is one of the failure cases. -/
def GenOutcome.isFailure : GenOutcome → Bool
  | GenOutcome.ok _ => false
  | _ => true

/-- Modelled from the spec: the fixed apologetic message the orchestrator
    returns when the generation collaborator fails (spec section 4.5,
    Failure semantics). -/
def APOLOGY_MESSAGE : String :=
  "I apologize, but I am having trouble answering right now. Please try again in a moment."

/-- Modelled from the spec: the clarifying question emitted for each Awaiting
    state (spec section 4.3 step 4); answering states produce none. -/
def clarifyPrompt : ResolverState → Option String
  | ResolverState.AwaitingCampus =>
      some "Which campus are you at: Munich, Heilbronn, or Singapore?"
  | ResolverState.AwaitingRole =>
      some "What is your role at TUM: student, employee, or visitor?"
  | ResolverState.AwaitingBoth =>
      some "Could you tell me your role and which campus you are at?"
  | _ => none

/-- Modelled from the spec: handle_turn (spec section 4.5) - resolve context,
    append the user turn; a context request short-circuits generation and is
    returned directly; otherwise the generation outcome decides the reply: on
    success the assistant turn is appended and its text returned, on any
    failure the fixed apology is returned and no assistant turn is written. -/
def handleTurn (limit : Nat) (s : Session) (msg : String) (time : Nat)
    (topRequiresRole topRequiresCampus : Bool) (gen : GenOutcome) :
    String × Session :=
  let rc := resolveContext s msg topRequiresRole topRequiresCampus
  let s2 := appendTurn limit rc.1 { speaker := Speaker.user, text := msg, timestamp := time }
  match clarifyPrompt rc.2 with
  | some q =>
      (q, appendTurn limit s2 { speaker := Speaker.assistant, text := q, timestamp := time })
  | none =>
      match gen with
      | GenOutcome.ok t =>
          (t, appendTurn limit s2 { speaker := Speaker.assistant, text := t, timestamp := time })
      | _ => (APOLOGY_MESSAGE, s2)

/- ===================== Search engine lemmas ===================== -/

lemma clampTopK_pos (top_k : Int) : 0 < clampTopK top_k := by
  by_cases h : top_k ≤ 0
  · simp [clampTopK, h]
  · simp only [clampTopK, h, if_false]
    omega

lemma rankAll_length (score : KnowledgeEntry → ℚ) (store : List KnowledgeEntry) :
    (rankAll score store).length = store.length := by
  unfold rankAll scoreResults
  rw [List.length_insertionSort, List.length_map]

lemma primaryResults_length_le (score : KnowledgeEntry → ℚ) (store : List KnowledgeEntry)
    (threshold : ℚ) (top_k : Int) :
    (primaryResults score store threshold top_k).length ≤ clampTopK top_k :=
  List.length_take_le _ _

lemma search_of_primary_empty (score : KnowledgeEntry → ℚ) (store : List KnowledgeEntry)
    (threshold : ℚ) (top_k : Int)
    (h : primaryResults score store threshold top_k = []) :
    search score store threshold top_k =
      { results := (rankAll score store).take (clampTopK top_k), fallback := true } := by
  simp [search, h]

lemma search_of_primary_ne (score : KnowledgeEntry → ℚ) (store : List KnowledgeEntry)
    (threshold : ℚ) (top_k : Int)
    (h : primaryResults score store threshold top_k ≠ []) :
    search score store threshold top_k =
      { results := primaryResults score store threshold top_k, fallback := false } := by
  simp [search, List.isEmpty_iff, h]

lemma rankAll_sorted (score : KnowledgeEntry → ℚ) (store : List KnowledgeEntry) :
    (rankAll score store).Pairwise rankRel :=
  List.sorted_insertionSort rankRel (scoreResults score store)

/- ===================== Witness data ===================== -/

/-- Concrete Knowledge Store entry used by the witnesses. -/
def libraryEntry : KnowledgeEntry :=
  { id := 1
    question := "where is the library"
    answer := "Arcisstrasse 21"
    keywords := ["library"]
    category := "campus"
    requires_role := false
    requires_campus := true }

/-- Second concrete Knowledge Store entry used by the witnesses. -/
def eduroamEntry : KnowledgeEntry :=
  { id := 2
    question := "how do I set up eduroam"
    answer := "use your TUM credentials"
    keywords := ["eduroam", "wifi"]
    category := "it"
    requires_role := false
    requires_campus := false }

/-- Concrete per-entry score used by the witnesses. -/
def sampleScore : KnowledgeEntry → ℚ := fun e => (e.id : ℚ)

/- ===================== Claim C2 ===================== -/

/-- C2: for a query whose primary (thresholded) result set is empty, search
    reuses the same ranking without the threshold and returns a non-empty
    best-effort result of at most top_k entries with the fallback flag set;
    when the primary set is non-empty the fallback flag is clear and only
    entries scoring at or above the threshold are returned. -/
theorem search_fallback_correct (score : KnowledgeEntry → ℚ)
    (store : List KnowledgeEntry) (threshold : ℚ) (top_k : Int)
    (hstore : store ≠ []) :
    (primaryResults score store threshold top_k = [] →
      (search score store threshold top_k).fallback = true ∧
      (search score store threshold top_k).results =
        (rankAll score store).take (clampTopK top_k) ∧
      (search score store threshold top_k).results ≠ [] ∧
      (search score store threshold top_k).results.length ≤ clampTopK top_k) ∧
    (primaryResults score store threshold top_k ≠ [] →
      (search score store threshold top_k).fallback = false ∧
      (search score store threshold top_k).results =
        primaryResults score store threshold top_k ∧
      (search score store threshold top_k).results.length ≤ clampTopK top_k ∧
      ∀ r ∈ (search score store threshold top_k).results,
        threshold ≤ r.fused_score) := by
  constructor
  · intro h
    rw [search_of_primary_empty score store threshold top_k h]
    refine ⟨rfl, rfl, ?_, List.length_take_le _ _⟩
    intro hnil
    rcases List.take_eq_nil_iff.mp hnil with hk | hr
    · have := clampTopK_pos top_k
      omega
    · apply hstore
      have := rankAll_length score store
      rw [hr] at this
      exact List.length_eq_zero.mp this.symm
  · intro h
    rw [search_of_primary_ne score store threshold top_k h]
    refine ⟨rfl, rfl, primaryResults_length_le score store threshold top_k, ?_⟩
    intro r hr
    have hr2 : r ∈ (rankAll score store).filter
        (fun r => decide (threshold ≤ r.fused_score)) := by
      simp only [primaryResults] at hr
      exact (List.take_sublist _ _).subset hr
    exact of_decide_eq_true (List.mem_filter.mp hr2).2

/-- Witness for C2: a concrete two-entry store where a threshold of 10 leaves
    the primary set empty, so search falls back. -/
theorem search_fallback_correct_witness :
    ([libraryEntry, eduroamEntry] : List KnowledgeEntry) ≠ [] ∧
    primaryResults sampleScore [libraryEntry, eduroamEntry] 10 2 = [] ∧
    ((search sampleScore [libraryEntry, eduroamEntry] 10 2).fallback = true ∧
     (search sampleScore [libraryEntry, eduroamEntry] 10 2).results =
       (rankAll sampleScore [libraryEntry, eduroamEntry]).take (clampTopK 2) ∧
     (search sampleScore [libraryEntry, eduroamEntry] 10 2).results ≠ [] ∧
     (search sampleScore [libraryEntry, eduroamEntry] 10 2).results.length ≤ clampTopK 2) :=
  ⟨by decide, by decide,
   (search_fallback_correct sampleScore [libraryEntry, eduroamEntry] 10 2
     (by decide)).1 (by decide)⟩

/- ===================== Claim C3 ===================== -/

/-- C3: threshold monotonicity - for a fixed query score and fixed store,
    raising the similarity threshold never increases the primary
    (non-fallback) result count. -/
theorem threshold_monotone (score : KnowledgeEntry → ℚ) (store : List KnowledgeEntry)
    (top_k : Int) (t1 t2 : ℚ) (h : t1 ≤ t2) :
    primaryCount score store t2 top_k ≤ primaryCount score store t1 top_k := by
  have hmono : (primaryResults score store t2 top_k).length ≤
      (primaryResults score store t1 top_k).length := by
    unfold primaryResults
    have hsub : ((rankAll score store).filter
        (fun r => decide (t2 ≤ r.fused_score))).Sublist
        ((rankAll score store).filter (fun r => decide (t1 ≤ r.fused_score))) := by
      apply List.monotone_filter_right
      intro a ha
      exact decide_eq_true (le_trans h (of_decide_eq_true ha))
    rw [List.length_take, List.length_take]
    exact min_le_min (le_refl _) hsub.length_le
  by_cases h2 : primaryResults score store t2 top_k = []
  · unfold primaryCount
    rw [search_of_primary_empty score store t2 top_k h2]
    simp
  · have h1 : primaryResults score store t1 top_k ≠ [] := by
      intro h1
      apply h2
      rw [h1] at hmono
      exact List.length_eq_zero.mp (Nat.le_zero.mp hmono)
    unfold primaryCount
    rw [search_of_primary_ne score store t2 top_k h2,
        search_of_primary_ne score store t1 top_k h1]
    simpa using hmono

/-- Witness for C3 at a concrete store: thresholds 1 and 10. -/
theorem threshold_monotone_witness :
    (1 : ℚ) ≤ 10 ∧
    primaryCount sampleScore [libraryEntry, eduroamEntry] 10 2 ≤
      primaryCount sampleScore [libraryEntry, eduroamEntry] 1 2 :=
  ⟨by decide,
   threshold_monotone sampleScore [libraryEntry, eduroamEntry] 2 1 10 (by decide)⟩

/- ===================== Claim C9 ===================== -/

/-- C9: search totality and top_k clamping - search is a total function of
    its inputs; a top_k of at most 0 is clamped to 1 before use, and the
    result always contains between 0 and max(top_k, 1) entries. -/
theorem search_topk_clamped (score : KnowledgeEntry → ℚ) (store : List KnowledgeEntry)
    (threshold : ℚ) (top_k : Int) :
    (top_k ≤ 0 → clampTopK top_k = 1) ∧
    ((clampTopK top_k : Int) = max top_k 1) ∧
    (search score store threshold top_k).results.length ≤ clampTopK top_k := by
  refine ⟨fun h => by simp [clampTopK, h], ?_, ?_⟩
  · by_cases h : top_k ≤ 0
    · simp only [clampTopK, h, if_true]
      rw [max_eq_right (h.trans (by norm_num))]
      rfl
    · simp only [clampTopK, h, if_false]
      rw [Int.toNat_of_nonneg (by omega), max_eq_left (by omega)]
  · by_cases h : primaryResults score store threshold top_k = []
    · rw [search_of_primary_empty score store threshold top_k h]
      exact List.length_take_le _ _
    · rw [search_of_primary_ne score store threshold top_k h]
      exact primaryResults_length_le score store threshold top_k

/-- Witness for C9 with the malformed top_k value -2. -/
theorem search_topk_clamped_witness :
    (-2 : Int) ≤ 0 ∧ clampTopK (-2) = 1 ∧
    (search sampleScore [libraryEntry, eduroamEntry] 1 (-2)).results.length ≤
      clampTopK (-2) :=
  ⟨by decide,
   (search_topk_clamped sampleScore [libraryEntry, eduroamEntry] 1 (-2)).1 (by decide),
   (search_topk_clamped sampleScore [libraryEntry, eduroamEntry] 1 (-2)).2.2⟩

/- ===================== Claim C6 ===================== -/

/-- C6: search determinism and deterministic ordering - for a fixed store and
    fixed query the fused score, and with it the whole search call, is a pure
    function of its inputs (repeated calls are identical terms), and the
    returned results are ordered by descending fused score with ties broken
    by ascending entry id. -/
theorem search_deterministic_ordering (semScore : String → KnowledgeEntry → ℚ)
    (weights : ℚ × ℚ) (query : String) (store : List KnowledgeEntry)
    (threshold : ℚ) (top_k : Int) :
    search (hybridScore semScore weights query) store threshold top_k =
      search (hybridScore semScore weights query) store threshold top_k ∧
    (search (hybridScore semScore weights query) store threshold top_k).results.Pairwise
      (fun a b => b.fused_score < a.fused_score ∨
        (a.fused_score = b.fused_score ∧ a.entry_id ≤ b.entry_id)) := by
  refine ⟨rfl, ?_⟩
  show (search (hybridScore semScore weights query) store threshold top_k).results.Pairwise rankRel
  have hs := rankAll_sorted (hybridScore semScore weights query) store
  by_cases h : primaryResults (hybridScore semScore weights query) store threshold top_k = []
  · rw [search_of_primary_empty _ store threshold top_k h]
    exact List.Pairwise.sublist (List.take_sublist _ _) hs
  · rw [search_of_primary_ne _ store threshold top_k h]
    unfold primaryResults
    exact List.Pairwise.sublist (List.take_sublist _ _) (List.Pairwise.filter _ hs)

/- ===================== Claim C5 ===================== -/

lemma appendTurn_history_length_le (limit : Nat) (s : Session) (t : Turn) :
    (appendTurn limit s t).history.length ≤ limit := by
  simp only [appendTurn, trimHistory, List.length_drop]
  omega

lemma foldl_appendTurn_length_le (limit : Nat) (ts : List Turn) (s : Session)
    (h : s.history.length ≤ limit) :
    (ts.foldl (appendTurn limit) s).history.length ≤ limit := by
  induction ts generalizing s with
  | nil => exact h
  | cons a rest ih =>
      exact ih (appendTurn limit s a) (appendTurn_history_length_le limit s a)

/-- C5: history bounding - after every append_turn call the session history
    has at most the configured limit of turns (the docker-compose default for
    CONVERSATION_HISTORY_LIMIT is 12), the trimming removes oldest turns
    first (the kept history is a suffix of the old history plus the new
    turn), and the bound holds after any non-empty sequence of appends. -/
theorem append_turn_history_bounded (limit : Nat) (s : Session) (t : Turn)
    (ts : List Turn) (hts : ts ≠ []) :
    (appendTurn limit s t).history.length ≤ limit ∧
    (appendTurn limit s t).history <:+ s.history ++ [t] ∧
    (ts.foldl (appendTurn limit) s).history.length ≤ limit := by
  refine ⟨appendTurn_history_length_le limit s t, ?_, ?_⟩
  · simp only [appendTurn, trimHistory]
    exact List.drop_suffix _ _
  · cases ts with
    | nil => exact absurd rfl hts
    | cons a rest =>
        exact foldl_appendTurn_length_le limit rest (appendTurn limit s a)
          (appendTurn_history_length_le limit s a)

/-- Concrete session used by the witnesses: fresh, nothing resolved. -/
def freshSession : Session :=
  { session_id := "s1"
    user_id := "u1"
    resolved_role := none
    resolved_campus := none
    history := []
    created_at := 0
    last_active_at := 0 }

/-- Concrete turn used by the witnesses. -/
def sampleTurn : Turn :=
  { speaker := Speaker.user, text := "hello", timestamp := 5 }

/-- Witness for C5 with limit 2 and three appended turns. -/
theorem append_turn_history_bounded_witness :
    ([sampleTurn, sampleTurn, sampleTurn] : List Turn) ≠ [] ∧
    ((appendTurn 2 freshSession sampleTurn).history.length ≤ 2 ∧
     (appendTurn 2 freshSession sampleTurn).history <:+ freshSession.history ++ [sampleTurn] ∧
     ([sampleTurn, sampleTurn, sampleTurn].foldl (appendTurn 2) freshSession).history.length ≤ 2) :=
  ⟨by decide,
   append_turn_history_bounded 2 freshSession sampleTurn
     [sampleTurn, sampleTurn, sampleTurn] (by decide)⟩

/- ===================== Claim C4 ===================== -/

lemma applyDeclarations_campus_of_resolved (s : Session) (msg : String) (c : Campus)
    (hc : s.resolved_campus = some c) :
    (applyDeclarations s msg).resolved_campus = some ((detectCampus msg).getD c) := by
  simp only [applyDeclarations]
  cases detectCampus msg <;> simp [hc]

lemma applyDeclarations_role_of_resolved (s : Session) (msg : String) (r : Role)
    (hr : s.resolved_role = some r) :
    (applyDeclarations s msg).resolved_role = some ((detectRole msg).getD r) := by
  simp only [applyDeclarations]
  cases detectRole msg <;> simp [hr]

lemma resolverStep_campus_known (s1 : Session) (reqRole reqCampus : Bool)
    (h : s1.resolved_campus.isNone = false) :
    resolverStep s1 reqRole reqCampus ≠ ResolverState.AwaitingCampus ∧
    resolverStep s1 reqRole reqCampus ≠ ResolverState.AwaitingBoth ∧
    (reqRole = true → s1.resolved_role.isNone = true →
      resolverStep s1 reqRole reqCampus = ResolverState.AwaitingRole) := by
  cases hcc : s1.resolved_campus with
  | none => rw [hcc] at h; simp at h
  | some c =>
      cases reqRole <;> cases reqCampus <;> cases hrr : s1.resolved_role <;>
        simp_all [resolverStep, derivedState]

lemma resolverStep_role_known (s1 : Session) (reqRole reqCampus : Bool)
    (h : s1.resolved_role.isNone = false) :
    resolverStep s1 reqRole reqCampus ≠ ResolverState.AwaitingRole ∧
    resolverStep s1 reqRole reqCampus ≠ ResolverState.AwaitingBoth ∧
    (reqCampus = true → s1.resolved_campus.isNone = true →
      resolverStep s1 reqRole reqCampus = ResolverState.AwaitingCampus) := by
  cases hrr : s1.resolved_role with
  | none => rw [hrr] at h; simp at h
  | some r =>
      cases reqRole <;> cases reqCampus <;> cases hcc : s1.resolved_campus <;>
        simp_all [resolverStep, derivedState]

/-- C4: context non-regression - once resolved_campus (or resolved_role) is
    set for a session, no handle_turn context resolution transitions back to
    an Awaiting state for that field, the resolved value changes only on an
    explicit new declaration in the user message (never silently), and when a
    later query requires the other field only that missing field is
    requested. -/
theorem context_non_regression (s : Session) (msg : String) (reqRole reqCampus : Bool) :
    (∀ c, s.resolved_campus = some c →
      (resolveContext s msg reqRole reqCampus).2 ≠ ResolverState.AwaitingCampus ∧
      (resolveContext s msg reqRole reqCampus).2 ≠ ResolverState.AwaitingBoth ∧
      (resolveContext s msg reqRole reqCampus).1.resolved_campus =
        some ((detectCampus msg).getD c) ∧
      (reqRole = true → s.resolved_role = none → detectRole msg = none →
        (resolveContext s msg reqRole reqCampus).2 = ResolverState.AwaitingRole)) ∧
    (∀ r, s.resolved_role = some r →
      (resolveContext s msg reqRole reqCampus).2 ≠ ResolverState.AwaitingRole ∧
      (resolveContext s msg reqRole reqCampus).2 ≠ ResolverState.AwaitingBoth ∧
      (resolveContext s msg reqRole reqCampus).1.resolved_role =
        some ((detectRole msg).getD r) ∧
      (reqCampus = true → s.resolved_campus = none → detectCampus msg = none →
        (resolveContext s msg reqRole reqCampus).2 = ResolverState.AwaitingCampus)) := by
  constructor
  · intro c hc
    have h1 := applyDeclarations_campus_of_resolved s msg c hc
    have hnone : (applyDeclarations s msg).resolved_campus.isNone = false := by
      rw [h1]; rfl
    have hstep := resolverStep_campus_known (applyDeclarations s msg) reqRole reqCampus hnone
    refine ⟨hstep.1, hstep.2.1, h1, ?_⟩
    intro hrr hrole hdet
    apply hstep.2.2 hrr
    simp [applyDeclarations, hdet, hrole]
  · intro r hr
    have h1 := applyDeclarations_role_of_resolved s msg r hr
    have hnone : (applyDeclarations s msg).resolved_role.isNone = false := by
      rw [h1]; rfl
    have hstep := resolverStep_role_known (applyDeclarations s msg) reqRole reqCampus hnone
    refine ⟨hstep.1, hstep.2.1, h1, ?_⟩
    intro hcc hcampus hdet
    apply hstep.2.2 hcc
    simp [applyDeclarations, hdet, hcampus]

/-- Concrete session with the campus already resolved, used by the C4
    witness. -/
def munichSession : Session :=
  { freshSession with resolved_campus := some Campus.munich }

/-- Witness for C4: a campus-resolved session, a message with no
    declarations, and a query requiring both fields asks only for the role. -/
theorem context_non_regression_witness :
    munichSession.resolved_campus = some Campus.munich ∧
    (resolveContext munichSession "hello there" true true).2 ≠ ResolverState.AwaitingCampus ∧
    (resolveContext munichSession "hello there" true true).2 ≠ ResolverState.AwaitingBoth ∧
    (resolveContext munichSession "hello there" true true).1.resolved_campus =
      some Campus.munich ∧
    (resolveContext munichSession "hello there" true true).2 = ResolverState.AwaitingRole := by
  have h := (context_non_regression munichSession "hello there" true true).1
    Campus.munich (by decide)
  exact ⟨by decide, h.1, h.2.1, by decide, h.2.2.2 rfl (by decide) (by decide)⟩

/- ===================== Claim C7 ===================== -/

/-- C7: generation-failure atomicity - when the external generation
    collaborator fails, times out, or returns malformed output on a turn that
    reached generation, handle_turn returns the fixed apologetic message, the
    session gains only the user turn (every assistant turn in the resulting
    history was already there), and nothing else is mutated beyond the
    context resolution that preceded generation. -/
theorem generation_failure_atomic (limit : Nat) (s : Session) (msg : String)
    (time : Nat) (reqRole reqCampus : Bool) (gen : GenOutcome)
    (hg : gen.isFailure = true)
    (hc : clarifyPrompt (resolveContext s msg reqRole reqCampus).2 = none) :
    handleTurn limit s msg time reqRole reqCampus gen =
      (APOLOGY_MESSAGE,
       appendTurn limit (resolveContext s msg reqRole reqCampus).1
         { speaker := Speaker.user, text := msg, timestamp := time }) ∧
    ∀ t ∈ (handleTurn limit s msg time reqRole reqCampus gen).2.history,
      t.speaker = Speaker.assistant → t ∈ s.history := by
  have hmain : handleTurn limit s msg time reqRole reqCampus gen =
      (APOLOGY_MESSAGE,
       appendTurn limit (resolveContext s msg reqRole reqCampus).1
         { speaker := Speaker.user, text := msg, timestamp := time }) := by
    unfold handleTurn
    simp only []
    rw [hc]
    cases gen with
    | ok t => simp [GenOutcome.isFailure] at hg
    | failed => rfl
    | timedOut => rfl
    | malformed => rfl
  refine ⟨hmain, ?_⟩
  intro t ht hta
  rw [hmain] at ht
  have hsub : (appendTurn limit (resolveContext s msg reqRole reqCampus).1
      { speaker := Speaker.user, text := msg, timestamp := time }).history <:+
      (resolveContext s msg reqRole reqCampus).1.history ++
        [{ speaker := Speaker.user, text := msg, timestamp := time }] :=
    List.drop_suffix _ _
  have ht2 := hsub.subset ht
  have hhist : (resolveContext s msg reqRole reqCampus).1.history = s.history := by
    simp [resolveContext, applyDeclarations]
  rw [hhist] at ht2
  rcases List.mem_append.mp ht2 with h | h
  · exact h
  · rw [List.mem_singleton.mp h] at hta
    simp at hta

/-- Witness for C7: a fresh session, a context-free turn, and a timed-out
    generation call. -/
theorem generation_failure_atomic_witness :
    GenOutcome.timedOut.isFailure = true ∧
    clarifyPrompt (resolveContext freshSession "hello there" false false).2 = none ∧
    handleTurn 12 freshSession "hello there" 7 false false GenOutcome.timedOut =
      (APOLOGY_MESSAGE,
       appendTurn 12 (resolveContext freshSession "hello there" false false).1
         { speaker := Speaker.user, text := "hello there", timestamp := 7 }) :=
  ⟨by decide, by decide,
   (generation_failure_atomic 12 freshSession "hello there" 7 false false
     GenOutcome.timedOut (by decide) (by decide)).1⟩

/- ===================== Claim C8 ===================== -/

/-- C8: empty-message validation - a message that is empty or whitespace-only
    is rejected by the sendMessage guard before any processing: no chat
    request is issued, no turn is appended, and the component state is
    unchanged. -/
theorem empty_message_rejected (st : ChatState) (h : jsTrim st.input = "") :
    sendMessage st = (st, none) := by
  simp [sendMessage, h]

/-- Witness for C8: a whitespace-only input. -/
theorem empty_message_rejected_witness :
    jsTrim "  \t " = "" ∧
    sendMessage
      { messages := [], input := "  \t ", isLoading := false, hasUserMessage := false } =
      ({ messages := [], input := "  \t ", isLoading := false, hasUserMessage := false },
       none) :=
  ⟨by decide, empty_message_rejected _ (by decide)⟩

/- ===================== Claim C1 ===================== -/

/-- C1 counterexample: the bot turn ChatWindow appends on a failed backend
    call embeds the backend error string, and on a connection failure embeds
    the exception message and the request URL, refuting the claim that the
    appended text contains no backend error string, no exception message and
    no internal URL. -/
theorem chat_error_leaks_payload :
    ContainsSub "Internal Server Error"
      (botReplyText "http://localhost:8083"
        (FetchOutcome.httpError (some "Internal Server Error"))) ∧
    ContainsSub "Failed to fetch"
      (botReplyText "http://localhost:8083" (FetchOutcome.exn "Failed to fetch")) ∧
    ContainsSub "http://localhost:8083/api/v2/chat"
      (botReplyText "http://localhost:8083" (FetchOutcome.exn "Failed to fetch")) := by
  refine ⟨⟨"I apologize, but I encountered an error: ",
           ". Please try again or contact support if the problem persists.", by decide⟩,
          ⟨"Connection error: ",
           ". API URL: http://localhost:8083/api/v2/chat", by decide⟩,
          ⟨"Connection error: Failed to fetch. API URL: ", "", by decide⟩⟩

/-- C1 amended: on every fetch outcome sendMessage appends exactly one
    complete bot turn (the chat contract is kept), but on a non-OK backend
    response the turn text embeds the backend error string (or the text
    Unknown error when the field is absent), and on a connection failure it
    embeds the exception message and the backend request URL. -/
theorem chat_error_turn_shape (apiBaseUrl e m : String) (st : ChatState)
    (o : FetchOutcome) :
    (applyFetchOutcome apiBaseUrl st o).messages =
      st.messages ++ [{ role := ChatRole.bot, text := botReplyText apiBaseUrl o }] ∧
    ContainsSub e (botReplyText apiBaseUrl (FetchOutcome.httpError (some e))) ∧
    ContainsSub "Unknown error" (botReplyText apiBaseUrl (FetchOutcome.httpError none)) ∧
    ContainsSub m (botReplyText apiBaseUrl (FetchOutcome.exn m)) ∧
    ContainsSub (apiBaseUrl ++ "/api/v2/chat")
      (botReplyText apiBaseUrl (FetchOutcome.exn m)) := by
  refine ⟨rfl, ?_, ?_, ?_, ?_⟩
  · exact ⟨"I apologize, but I encountered an error: ",
           ". Please try again or contact support if the problem persists.", rfl⟩
  · exact ⟨"I apologize, but I encountered an error: ",
           ". Please try again or contact support if the problem persists.", rfl⟩
  · refine ⟨"Connection error: ", ". API URL: " ++ apiBaseUrl ++ "/api/v2/chat", ?_⟩
    simp [botReplyText, String.append_assoc]
  · refine ⟨"Connection error: " ++ m ++ ". API URL: ", "", ?_⟩
    simp [botReplyText, String.append_assoc, String.append_empty]

/- ===================== Claim C10 ===================== -/

/-- C10: the SecurityGuard renders its children only when the IP-validation
    response is OK with a well-formed body (blocked a boolean, reason a
    string, request_id present) and blocked is false; on every other outcome
    - network error, non-OK status, null body, failed integrity check, or
    blocked true - the guard shows an error or blocked screen and the
    children are never rendered (fail-closed). -/
theorem security_guard_fail_closed (f : FetchIP) :
    renderGuard (validateIP f) = GuardView.content ↔
      ∃ d : IPData, f = FetchIP.ok (some d) ∧ verifyResponseIntegrity d = true ∧
        d.blocked = JVal.jbool false := by
  cases f with
  | ok body =>
      cases body with
      | none => simp [validateIP, renderGuard, initialGuardState]
      | some d =>
          by_cases hv : verifyResponseIntegrity d = true
          · cases hbl : d.blocked with
            | jbool b =>
                cases b <;>
                  simp_all [validateIP, renderGuard, initialGuardState, JVal.truthy]
            | jnull =>
                rw [verifyResponseIntegrity, hbl] at hv
                simp [JVal.isBool] at hv
            | jstr s2 =>
                rw [verifyResponseIntegrity, hbl] at hv
                simp [JVal.isBool] at hv
            | jnum n =>
                rw [verifyResponseIntegrity, hbl] at hv
                simp [JVal.isBool] at hv
          · simp_all [validateIP, renderGuard, initialGuardState]
  | httpFail status => simp [validateIP, renderGuard, initialGuardState]
  | netError message => simp [validateIP, renderGuard, initialGuardState]
